import Mathlib

/-!
Formal model of the inventory / point-of-sale core of store_manager.py
(repository TOMMYzhn/store_manager).

The persisted Excel workbook with its three sheets (products, transactions,
stock_log) is modelled as a StoreState value; every full-file rewrite of the
workbook is modelled as producing the next StoreState.  Python floats are
modelled as rationals, pandas NaN-able text cells as Option String, and a
Python operation that can raise an uncaught exception returns a PyResult
whose raise branch carries the store state already persisted at the moment
of the raise.

Modelling notes, each justified against the source:
  - load_products reads the products sheet with dtype=str, so every raw cell
    is a string or NaN; a raw sheet is a RawTable (column labels plus rows of
    optional strings) and a failed read is the value none.
  - pd.to_numeric(..., errors="coerce") is modelled by parseNum, which
    accepts optionally signed finite decimal numerals (optional single
    decimal point), the shape of every numeral the surrounding program
    writes into the workbook.  Non-finite numerals such as inf are outside
    the model.
  - In update_stock_by_barcode (source lines 238-262) the log record literal
    evaluates df.at[i].get("name", "") on the found path.  The pandas .at
    indexer is scalar access: for a DataFrame it wraps a non-tuple key k
    into (k,) and calls DataFrame._get_value(k), which is missing its
    required col argument, so every pandas version raises TypeError.  The
    raise happens after save_products(df) (line 248) and before
    append_stock_log, so the raise branch carries the catalog with the stock
    already updated and the stock log unchanged.
-/

namespace StoreManager

/-- One catalog entry, in the shape produced by load_products: barcode and id
are strings (fillna("") plus astype(str)), stock and bulk_quantity are
integers, the three price columns are numbers or null, every other column is
a raw cell that may be missing (pandas NaN, modelled as none).  Field order
follows ENGLISH_HEADERS_ORDER of the source plus expiry_date. -/
structure Product where
  category : Option String
  id : String
  name : Option String
  barcode : String
  bulk_price : Option ℚ
  bulk_quantity : Int
  purchase_price : Option ℚ
  price : Option ℚ
  profit_margin : Option String
  stock : Int
  location : Option String
  supplier : Option String
  image_path : Option String
  notes : Option String
  expiry_date : Option String
deriving DecidableEq

/-- One line item of the POS cart (source lines 303-310). -/
structure CartItem where
  id : String
  barcode : String
  name : String
  price : ℚ
  qty : Int
  subtotal : ℚ
deriving DecidableEq

/-- One row of the transactions sheet; the json.dumps serialization of the
line items is modelled as the list itself. -/
structure Transaction where
  txn_id : String
  datetime : String
  items : List CartItem
  total : ℚ
  paid : ℚ
  change : ℚ
  operator : String
  note : String
deriving DecidableEq

/-- One row of the stock_log sheet.  The type column is called typ, matching
the local variable name used in the source. -/
structure StockLogEntry where
  log_id : String
  datetime : String
  barcode : String
  name : String
  change : Int
  before_stock : Int
  after_stock : Int
  typ : String
  operator : String
  note : String
deriving DecidableEq

/-- The whole persisted workbook: products, transactions and stock_log
sheets. -/
structure StoreState where
  products : List Product
  transactions : List Transaction
  stockLog : List StockLogEntry
deriving DecidableEq

/-- Result of a Python operation that may raise an uncaught exception.  Both
branches carry the store state as persisted on disk when the operation
returns (ok) or when the exception escapes (raise). -/
inductive PyResult (α : Type) where
  | ok : α → StoreState → PyResult α
  | raise : String → StoreState → PyResult α
deriving DecidableEq

/-- COLUMN_MAP of the source: localized (Chinese) column label to internal
(English) column label, in the fixed source order. -/
def COLUMN_MAP : List (String × String) :=
  [("分类", "category"), ("序号", "id"), ("商品名称", "name"), ("条形码", "barcode"),
   ("1件箱套条包盒价格", "bulk_price"), ("1件箱套条包盒数量", "bulk_quantity"),
   ("1个单位进货价格", "purchase_price"), ("销售价", "price"), ("利润率", "profit_margin"),
   ("库存", "stock"), ("位置", "location"), ("供应商", "supplier"),
   ("图片路径", "image_path"), ("备注", "notes")]

/-- CHINESE_HEADERS_ORDER of the source. -/
def CHINESE_HEADERS_ORDER : List String := COLUMN_MAP.map Prod.fst

/-- ENGLISH_HEADERS_ORDER of the source. -/
def ENGLISH_HEADERS_ORDER : List String := COLUMN_MAP.map Prod.snd

/-- A raw products sheet as read by pandas with dtype=str: column labels and
rows of cells, a cell being a string or NaN (none). -/
structure RawTable where
  cols : List String
  rows : List (List (Option String))

/-- Characters of a string with leading and trailing whitespace removed;
model of the Python str.strip method, written by structural recursion so
that it evaluates inside the kernel. -/
def stripChars (l : List Char) : List Char :=
  ((l.dropWhile Char.isWhitespace).reverse.dropWhile Char.isWhitespace).reverse

/-- Model of the Python str.strip method on a string. -/
def pyStrip (s : String) : String :=
  ⟨stripChars s.data⟩

/-- Value of a decimal digit string. -/
def digitsToNat (s : List Char) : Nat :=
  s.foldl (fun n c => 10 * n + (c.toNat - 48)) 0

/-- Model of pd.to_numeric(cell, errors="coerce") on one string cell:
surrounding whitespace is ignored, an optional sign is followed by decimal
digits with at most one decimal point and at least one digit; anything else
coerces to NaN (none). -/
def parseNum (s : String) : Option ℚ :=
  let signAndRest : ℚ × List Char :=
    match stripChars s.data with
    | '-' :: rest => (-1, rest)
    | '+' :: rest => (1, rest)
    | l => (1, l)
  match signAndRest.snd.splitOn '.' with
  | [ip] =>
      if 0 < ip.length ∧ ip.all Char.isDigit then
        some (signAndRest.fst * (digitsToNat ip : ℚ))
      else none
  | [ip, fp] =>
      if 0 < ip.length + fp.length ∧ ip.all Char.isDigit ∧ fp.all Char.isDigit then
        some (signAndRest.fst * ((digitsToNat ip : ℚ) +
          (digitsToNat fp : ℚ) / ((10 : ℚ) ^ fp.length)))
      else none
  | _ => none

/-- Truncation toward zero, the behaviour of astype(int) on a float
column. -/
def truncInt (q : ℚ) : Int :=
  if 0 ≤ q then ((q.num.toNat / q.den : Nat) : Int)
  else -(((-q).num.toNat / (-q).den : Nat) : Int)

/-- Coercion used for the stock and bulk_quantity columns:
pd.to_numeric(errors="coerce").fillna(0).astype(int), so a missing or
unparsable cell becomes 0. -/
def coerceInt (c : Option String) : Int :=
  match c with
  | none => 0
  | some s => match parseNum s with
    | none => 0
    | some q => truncInt q

/-- Coercion used for the price, purchase_price and bulk_price columns:
pd.to_numeric(errors="coerce"), so a missing or unparsable cell becomes NaN
(none). -/
def coerceNum (c : Option String) : Option ℚ :=
  c.bind parseNum

/-- Cell of a row under a column label: position of the first column with
that label (pandas column selection), none when the column is absent. -/
def getCell (cols : List String) (row : List (Option String)) (c : String) : Option String :=
  match cols.findIdx? (fun x => x == c) with
  | none => none
  | some j => (row.get? j).join

/-- Renaming applied by df.rename(columns=COLUMN_MAP): a label that is a
localized key is replaced by its internal name, any other label is kept. -/
def applyColumnMap (c : String) : String :=
  (COLUMN_MAP.lookup c).getD c

/-- load_products (source lines 101-145).  The argument is the outcome of
reading the products sheet: none models any read or parse failure, which
the except branch of the source turns into an empty catalog.  On success the
column labels are renamed from the localized set when any localized key is
present, missing columns behave as all-NaN columns, and the per-column
coercions of the source are applied. -/
def load_products (raw : Option RawTable) : List Product :=
  match raw with
  | none => []
  | some t =>
    let cols :=
      if t.cols.any (fun c => (COLUMN_MAP.lookup c).isSome) then t.cols.map applyColumnMap
      else t.cols
    t.rows.map (fun row =>
      { category := getCell cols row "category"
        id := (getCell cols row "id").getD ""
        name := getCell cols row "name"
        barcode := (getCell cols row "barcode").getD ""
        bulk_price := coerceNum (getCell cols row "bulk_price")
        bulk_quantity := coerceInt (getCell cols row "bulk_quantity")
        purchase_price := coerceNum (getCell cols row "purchase_price")
        price := coerceNum (getCell cols row "price")
        profit_margin := getCell cols row "profit_margin"
        stock := coerceInt (getCell cols row "stock")
        location := getCell cols row "location"
        supplier := getCell cols row "supplier"
        image_path := getCell cols row "image_path"
        notes := getCell cols row "notes"
        expiry_date := getCell cols row "expiry_date" })

/-- save_products (source lines 147-167): rewrites the products sheet while
reading back and preserving the transactions and stock_log sheets. -/
def save_products (df : List Product) (st : StoreState) : StoreState :=
  { st with products := df }

/-- append_transaction (source lines 169-187): appends one transaction row
and rewrites all three sheets, preserving products and stock_log. -/
def append_transaction (tx : Transaction) (st : StoreState) : StoreState :=
  { st with transactions := st.transactions ++ [tx] }

/-- append_stock_log (source lines 189-205): appends one stock_log row and
rewrites all three sheets, preserving products and transactions. -/
def append_stock_log (e : StockLogEntry) (st : StoreState) : StoreState :=
  { st with stockLog := st.stockLog ++ [e] }

/-- Display form of a raw name cell, modelling astype(str): a NaN cell turns
into the literal string nan. -/
def nameStr (p : Product) : String :=
  match p.name with
  | some s => s
  | none => "nan"

/-- Literal case-insensitive substring test.  This is NOT the general model
of Series.str.contains (which treats the query as a regular expression, see
search_by_name): it is the concrete matcher with which the compile
capability is instantiated below, valid because every concrete query used
with it is free of regex metacharacters, and for such a pattern re.compile
succeeds and re.search finds the pattern exactly where the literal substring
occurs. -/
def strContainsCI (s q : String) : Bool :=
  let hs := s.data.map Char.toLower
  let ns := q.data.map Char.toLower
  (List.range (hs.length + 1)).any (fun i => ns.isPrefixOf (hs.drop i))

/-- Message carried by the re.error exception that
Series.str.contains(query, ...) raises on a regex-invalid query (for
instance a lone opening parenthesis). -/
def msgReError : String := "re.error: invalid regular expression"

/-- search_by_name (source lines 210-224).  The matching step of the source
is Series.str.contains(query, case=False, na=False) after astype(str), whose
default regex=True interprets the query as a regular expression compiled
with IGNORECASE: it is modelled by the reCompile capability argument, where
none stands for re.compile raising re.error on an invalid pattern (the
exception escapes search_by_name, modelled by the error branch) and some f
is the compiled case-insensitive matcher, f s deciding whether the pattern
matches anywhere in s.  The optional rapidfuzz dependency is modelled as a
capability flag plus an extraction function standing for
process.extract(query, choices, scorer=fuzz.WRatio, limit=limit) followed by
taking the matched strings: it receives the query, the choices list (all
product names after astype(str)) and the limit, and returns the ranked
matched names.  The source then keeps every product whose raw name column
value is isin the returned names; a NaN name never equals a string, so it is
dropped by isin. -/
def search_by_name (query : String) (products : List Product) (limit : Nat)
    (fuzzyAvailable : Bool) (reCompile : String → Option (String → Bool))
    (extract : String → List String → Nat → List String) :
    Except String (List Product) :=
  let q := pyStrip query
  if q.length = 0 then .ok []
  else
    match reCompile q with
    | none => .error msgReError
    | some f =>
        let subs := products.filter (fun p => f (nameStr p))
        if 1 ≤ subs.length ∨ fuzzyAvailable = false then .ok (subs.take limit)
        else
          let choices := products.map nameStr
          let names := extract q choices limit
          .ok (products.filter (fun p =>
            match p.name with
            | some s => names.contains s
            | none => false))

/-- search_by_barcode (source lines 226-233): the input is stripped, an
empty input returns the empty result, otherwise the rows whose barcode cell
(fillna("") plus astype(str), already the shape of Product.barcode) equals
the stripped input are returned. -/
def search_by_barcode (barcode : String) (products : List Product) : List Product :=
  let b := pyStrip barcode
  if b = "" then []
  else products.filter (fun p => p.barcode == b)

/-- Helper for df.index[df colon barcode equals b][0]: locates the first
product whose barcode equals the given string, returns its prior stock and
the catalog with that product replaced by upd of it; none when no product
matches. -/
def updateFirstMatch (barcode : String) (upd : Product → Product) :
    List Product → Option (Int × List Product)
  | [] => none
  | p :: rest =>
      if p.barcode == barcode then some (p.stock, upd p :: rest)
      else
        match updateFirstMatch barcode upd rest with
        | none => none
        | some (b, l) => some (b, p :: l)

/-- Message returned when no product matches the barcode (source line
243). -/
def msgNotFound : String := "未找到条码对应商品"

/-- Message raised by the pandas scalar accessor misuse at source line
253. -/
def msgAtTypeError : String :=
  "TypeError: DataFrame._get_value() missing 1 required positional argument: col"

/-- update_stock_by_barcode (source lines 238-262).  When no product matches
the barcode it returns (False, not-found message) with the store untouched.
When a product matches, the first matching row gets stock := before + delta
(no floor check) and save_products persists the catalog; the log record
literal then evaluates df.at[i].get("name", "") and the pandas scalar
accessor raises TypeError, so append_stock_log is never reached, no entry is
appended and neither True nor False is returned: the raise branch carries
the persisted state.  The operator, typ and note arguments would only have
been used in the log record, after the point of the raise. -/
def update_stock_by_barcode (barcode : String) (delta : Int)
    (operator typ note : String) (st : StoreState) : PyResult (Bool × String) :=
  match updateFirstMatch barcode (fun p => { p with stock := p.stock + delta }) st.products with
  | none => .ok (false, msgNotFound) st
  | some (_, prods) => .raise msgAtTypeError (save_products prods st)

/-- Checkout loop of the POS block (source lines 325-331): applies
update_stock_by_barcode to each cart line in order, accumulating the overall
success flag and the per-item failure messages; an uncaught exception from a
line aborts the loop. -/
def pos_checkout_loop (operator typ note : String) :
    List CartItem → StoreState → Bool → List String → PyResult (Bool × List String)
  | [], st, success, msgs => .ok (success, msgs) st
  | it :: rest, st, success, msgs =>
      match update_stock_by_barcode it.barcode (-it.qty) operator typ note st with
      | .raise e stx => .raise e stx
      | .ok (ok, msg) stx =>
          pos_checkout_loop operator typ note rest stx (success && ok)
            (if ok then msgs else msgs ++ [it.name ++ ": " ++ msg])

/-- POS checkout block (source lines 317-347).  The cart and the paid amount
come from the session; total is the sum of the cart subtotals (line 320).
On overall success one transaction with change = paid - total is appended
and the cart is cleared; on overall failure the messages are shown and the
cart is kept.  The returned triple is (appended transaction if any,
failure messages, cart after the click). -/
def pos_checkout (cart : List CartItem) (paid : ℚ) (txnId now : String)
    (st : StoreState) : PyResult (Option Transaction × List String × List CartItem) :=
  let total := (cart.map (fun it => it.subtotal)).sum
  match pos_checkout_loop "收银" "sale" "POS 结账" cart st true [] with
  | .raise e stx => .raise e stx
  | .ok (success, msgs) stx =>
      if success then
        let txn : Transaction :=
          { txn_id := txnId, datetime := now, items := cart, total := total,
            paid := paid, change := paid - total, operator := "收银", note := "" }
        .ok (some txn, msgs, []) (append_transaction txn stx)
      else
        .ok (none, msgs, cart) stx

/-- New product row built by the add_form block: text inputs stripped,
numeric inputs as given, supplier, image_path and expiry_date empty,
profit_margin NaN. -/
def newProductRow (newId : String) (barcode name category location notes : String)
    (price purchase_price bulk_price : ℚ) (bulk_quantity stock : Int) : Product :=
  { category := some (pyStrip category)
    id := newId
    name := some (pyStrip name)
    barcode := pyStrip barcode
    bulk_price := some bulk_price
    bulk_quantity := bulk_quantity
    purchase_price := some purchase_price
    price := some price
    profit_margin := none
    stock := stock
    location := some (pyStrip location)
    supplier := some ""
    image_path := some ""
    notes := some (pyStrip notes)
    expiry_date := some "" }

/-- Stock log entry written for the initial stock of a newly added
product. -/
def initEntryRow (b nm : String) (stock : Int) (logId now : String) : StockLogEntry :=
  { log_id := logId, datetime := now, barcode := b, name := nm, change := stock,
    before_stock := 0, after_stock := stock, typ := "in_initial",
    operator := "system", note := "新建商品初始库存" }

/-- add_form block of the maintenance mode (source lines 452-487): appends
the new product row to the catalog and persists; then, exactly when the
initial stock is positive and the stripped barcode is nonempty, appends one
in_initial stock log entry with before_stock 0 and after_stock the initial
stock. -/
def add_product (newId : String) (barcode name category location notes : String)
    (price purchase_price bulk_price : ℚ) (bulk_quantity stock : Int)
    (logId now : String) (st : StoreState) : StoreState :=
  let new : Product :=
    newProductRow newId barcode name category location notes price purchase_price
      bulk_price bulk_quantity stock
  let st1 := save_products (st.products ++ [new]) st
  if 0 < stock ∧ new.barcode ≠ "" then
    append_stock_log (initEntryRow new.barcode (pyStrip name) stock logId now) st1
  else st1

/-- Overwrite of the editable fields of a catalog row with the edit form
values. -/
def editedRow (name2 category2 location2 notes2 : String)
    (price2 purchase_price2 bulk_price2 : ℚ) (bulk_quantity2 stock2 : Int)
    (p : Product) : Product :=
  { p with name := some name2, category := some category2,
           price := some price2, purchase_price := some purchase_price2,
           bulk_price := some bulk_price2, bulk_quantity := bulk_quantity2,
           location := some location2, stock := stock2, notes := some notes2 }

/-- Stock log entry written by the edit form when the stock value
changed. -/
def manualEntryRow (ebar nm : String) (before stock2 : Int)
    (logId now : String) : StockLogEntry :=
  { log_id := logId, datetime := now, barcode := ebar, name := nm,
    change := stock2 - before, before_stock := before, after_stock := stock2,
    typ := "adjust_manual", operator := "库存编辑", note := "人工修改库存" }

/-- save_btn block of the edit form (source lines 511-543): locates the
first product whose barcode equals the entered barcode, overwrites its
editable fields, persists; when the stock value changed, appends one
adjust_manual stock log entry whose change is the difference.  When no
product matches, an error is shown and nothing changes. -/
def update_product (ebar : String) (name2 category2 location2 notes2 : String)
    (price2 purchase_price2 bulk_price2 : ℚ) (bulk_quantity2 stock2 : Int)
    (logId now : String) (st : StoreState) : StoreState :=
  match updateFirstMatch ebar
      (editedRow name2 category2 location2 notes2 price2 purchase_price2
        bulk_price2 bulk_quantity2 stock2) st.products with
  | none => st
  | some (before, prods) =>
      let st1 := save_products prods st
      if before = stock2 then st1
      else append_stock_log (manualEntryRow ebar name2 before stock2 logId now) st1

/-- del_btn block of the edit form (source lines 544-548): keeps every
product whose barcode differs from the entered barcode and persists; no
stock log entry is written and an absent barcode is not an error. -/
def delete_product (ebar : String) (st : StoreState) : StoreState :=
  save_products (st.products.filter (fun p => p.barcode != ebar)) st

/-- Invariant stated by the spec for every stock_log row: the resulting
stock equals the prior stock plus the signed delta. -/
def logInv (e : StockLogEntry) : Prop :=
  e.after_stock = e.before_stock + e.change

/-- Product with only id, barcode, name, price and stock set, every other
column as a fresh form or an empty sheet leaves it. -/
def mkProduct (i b : String) (n : Option String) (pr : Option ℚ) (s : Int) : Product :=
  { category := none
    id := i
    name := n
    barcode := b
    bulk_price := none
    bulk_quantity := 0
    purchase_price := none
    price := pr
    profit_margin := none
    stock := s
    location := none
    supplier := none
    image_path := none
    notes := none
    expiry_date := none }

/-- Product produced by load_products for a row of an empty-column sheet:
every field takes its default. -/
def defaultRowProduct : Product :=
  mkProduct "" "" none none 0

/-- Fixture: the sample bottled-water product, barcode A, price 2.5, stock
50 (the §8 checkout example of the spec). -/
def pA : Product := mkProduct "a1" "A" (some "矿泉水 500ml") (some (5 / 2)) 50

/-- Fixture: a store holding only pA, with empty transaction and stock
logs. -/
def stA : StoreState := { products := [pA], transactions := [], stockLog := [] }

/-- Fixture: the empty store. -/
def stEmpty : StoreState := { products := [], transactions := [], stockLog := [] }

/-- Fixture: cart line buying one unit of pA. -/
def itemA1 : CartItem :=
  { id := "a1", barcode := "A", name := "矿泉水 500ml", price := 5 / 2, qty := 1, subtotal := 5 / 2 }

/-- Fixture: cart line buying two units of pA (the §8 checkout example). -/
def itemA2 : CartItem :=
  { id := "a1", barcode := "A", name := "矿泉水 500ml", price := 5 / 2, qty := 2, subtotal := 5 }

/-- Fixture: cart line whose barcode B matches nothing (deleted
mid-session). -/
def itemGoneB : CartItem :=
  { id := "b1", barcode := "B", name := "方便面", price := 4, qty := 1, subtotal := 4 }

/-- Fixture: a second cart line whose barcode C matches nothing. -/
def itemGoneC : CartItem :=
  { id := "c1", barcode := "C", name := "饼干", price := 3, qty := 1, subtotal := 3 }

/-- Fixture: two products sharing barcode X plus one with barcode Y. -/
def pX1 : Product := mkProduct "x1" "X" (some "泡面") none 5

/-- Fixture: second product with the duplicated barcode X. -/
def pX2 : Product := mkProduct "x2" "X" (some "泡面大碗") none 7

/-- Fixture: product with barcode Y. -/
def pY : Product := mkProduct "y1" "Y" (some "可乐") none 1

/-- Fixture: a store whose catalog has a duplicated barcode. -/
def stDup : StoreState := { products := [pX1, pX2, pY], transactions := [], stockLog := [] }

/-- Fixture: product with barcode A and stock 3, used to show stock going
negative. -/
def pNeg : Product := mkProduct "n1" "A" (some "纸巾") none 3

/-- Fixture: store holding only pNeg. -/
def stNeg : StoreState := { products := [pNeg], transactions := [], stockLog := [] }

/-- Fixture: two distinct products that share the name Apple and have no
barcode. -/
def apple1 : Product := mkProduct "ap1" "" (some "Apple") none 0

/-- Fixture: the second product named Apple. -/
def apple2 : Product := mkProduct "ap2" "" (some "Apple") none 0

/-- Fixture: a product named Banana. -/
def pBanana : Product := mkProduct "bn1" "" (some "Banana") none 0

/-- Concrete instance of the fuzzy extraction capability: the first limit
distinct names, in choice order.  It satisfies the contract of rapidfuzz
process.extract (at most limit results, each a member of choices, one tuple
per extracted choice), and on the inputs used below it returns exactly what
process.extract with the WRatio scorer returns, namely the single name
Apple. -/
def extractDedup (q : String) (choices : List String) (limit : Nat) : List String :=
  let _ := q
  choices.dedup.take limit

/-- Concrete instance of the regex-compile capability of search_by_name:
every pattern compiles, to the literal case-insensitive substring matcher.
At a metacharacter-free pattern this is exactly what
re.compile(pattern, re.IGNORECASE) followed by re.search computes, so the
instance agrees with the Python behaviour at every concrete query used
below. -/
def reCompileLiteral (q : String) : Option (String → Bool) :=
  some (fun s => strContainsCI s q)

/-- helper: when no product of the catalog carries the barcode, the
first-match locator finds nothing. -/
theorem updateFirstMatch_eq_none (b : String) (f : Product → Product)
    (l : List Product) (h : ∀ p ∈ l, p.barcode ≠ b) :
    updateFirstMatch b f l = none := by
  induction l with
  | nil => rfl
  | cons p rest ih =>
      have hp : (p.barcode == b) = false := by
        simpa using h p (List.mem_cons_self p rest)
      have hrest := ih (fun q hq => h q (List.mem_cons_of_mem p hq))
      simp [updateFirstMatch, hp, hrest]

/-- C5: adjusting stock for a barcode with no exactly-matching catalog entry
returns failure with the not-found message, and the store state is
completely unchanged: catalog not persisted, no stock log entry appended, no
transaction written. -/
theorem C5_adjust_stock_not_found (b : String) (delta : Int)
    (operator typ note : String) (st : StoreState)
    (h : ∀ p ∈ st.products, p.barcode ≠ b) :
    update_stock_by_barcode b delta operator typ note st = .ok (false, msgNotFound) st := by
  unfold update_stock_by_barcode
  rw [updateFirstMatch_eq_none b _ st.products h]

/-- Witness for C5 at a concrete store and barcode. -/
theorem C5_adjust_stock_not_found_witness :
    update_stock_by_barcode "Z" 1 "仓库" "in" "" stA = .ok (false, msgNotFound) stA :=
  C5_adjust_stock_not_found "Z" 1 "仓库" "in" "" stA (by decide)

/-- C10 (code_bug record): on a catalog where two entries share barcode X,
adjusting X by +3 does update only the first matching entry (5 becomes 8)
and leaves the second X entry and the Y entry untouched, but then raises the
pandas TypeError instead of appending a stock log entry, so zero entries are
appended where the claim requires exactly one. -/
theorem C10_duplicate_barcode_adjust_behaviour :
    update_stock_by_barcode "X" 3 "仓库" "in" "" stDup =
      .raise msgAtTypeError
        { products := [mkProduct "x1" "X" (some "泡面") none 8, pX2, pY]
          transactions := []
          stockLog := [] } := by
  decide

/-- C6 (code_bug record): on the §8 example (cart of two units of A at 2.5,
stock 50, paid 10) checkout persists stock 48 for A and then raises the
pandas TypeError from the stock mutator: no stock log entry and no
transaction are appended and the cart is not cleared, where the claim
requires one transaction with total 5 and change 5 and a cleared cart. -/
theorem C6_checkout_success_path_behaviour :
    pos_checkout [itemA2] 10 "t1" "now" stA =
      .raise msgAtTypeError
        { products := [mkProduct "a1" "A" (some "矿泉水 500ml") (some (5 / 2)) 48]
          transactions := []
          stockLog := [] } := by
  rfl

/-- C1 (code_bug record): first, on the cart of the §8 failure test (first
line resolves to A, second line references the deleted barcode B), checkout
raises the pandas TypeError while processing the first line, after
persisting stock 49 for A: the failure-message list is never produced.
Second, on a cart whose two lines both reference absent barcodes, the loop
does not stop at the first failure: both lines are attempted and two
per-item failure messages are accumulated, no transaction is appended, the
cart is kept and the store is unchanged. -/
theorem C1_checkout_failure_behaviour :
    pos_checkout [itemA1, itemGoneB] 10 "t1" "now" stA =
      .raise msgAtTypeError
        { products := [mkProduct "a1" "A" (some "矿泉水 500ml") (some (5 / 2)) 49]
          transactions := []
          stockLog := [] } ∧
    pos_checkout [itemGoneB, itemGoneC] 10 "t1" "now" stA =
      .ok (none, ["方便面: 未找到条码对应商品", "饼干: 未找到条码对应商品"],
        [itemGoneB, itemGoneC]) stA := by
  exact ⟨rfl, rfl⟩

/-- C9: deleting a barcode removes exactly the catalog entries whose barcode
equals the given string, preserves the other entries in order, persists,
emits no stock log entry and no transaction, is idempotent, and deleting an
absent barcode is a silent no-op. -/
theorem C9_delete_product (b : String) (st : StoreState) :
    (∀ p ∈ (delete_product b st).products, p.barcode ≠ b) ∧
    (delete_product b st).products = st.products.filter (fun p => p.barcode != b) ∧
    (delete_product b st).stockLog = st.stockLog ∧
    (delete_product b st).transactions = st.transactions ∧
    delete_product b (delete_product b st) = delete_product b st ∧
    ((∀ p ∈ st.products, p.barcode ≠ b) → delete_product b st = st) := by
  refine ⟨?_, rfl, rfl, rfl, ?_, ?_⟩
  · intro p hp
    have := List.of_mem_filter hp
    simpa using this
  · simp [delete_product, save_products, List.filter_filter]
  · intro h
    have hfix : st.products.filter (fun p => p.barcode != b) = st.products :=
      List.filter_eq_self.mpr (fun p hp => by simpa using h p hp)
    simp [delete_product, save_products, hfix]

/-- Witness for C9: deleting an absent barcode from a concrete store leaves
it exactly as it was. -/
theorem C9_delete_product_witness :
    delete_product "Z" stA = stA :=
  (C9_delete_product "Z" stA).2.2.2.2.2 (by decide)

/-- C2: every stock log entry present after any of the mutating operations
satisfies after_stock = before_stock + change, provided every entry already
present did; moreover the stock mutator applies before + delta with no floor
check, so when it locates a product it persists exactly stock + delta (which
may be negative), and appends nothing: its ok outcome leaves the log
unchanged, and its raise outcome, the only outcome on the found path, also
leaves the log unchanged. -/
theorem C2_stock_log_entries_invariant (st : StoreState)
    (hst : ∀ e ∈ st.stockLog, logInv e) :
    (∀ newId barcode name category location notes price purchase_price bulk_price
        bulk_quantity stock logId now,
      ∀ e ∈ (add_product newId barcode name category location notes price
        purchase_price bulk_price bulk_quantity stock logId now st).stockLog, logInv e) ∧
    (∀ ebar name2 category2 location2 notes2 price2 purchase_price2 bulk_price2
        bulk_quantity2 stock2 logId now,
      ∀ e ∈ (update_product ebar name2 category2 location2 notes2 price2
        purchase_price2 bulk_price2 bulk_quantity2 stock2 logId now st).stockLog, logInv e) ∧
    (∀ barcode delta operator typ note r stx,
      update_stock_by_barcode barcode delta operator typ note st = .ok r stx →
        stx.stockLog = st.stockLog) ∧
    (∀ barcode delta operator typ note m stx,
      update_stock_by_barcode barcode delta operator typ note st = .raise m stx →
        stx.stockLog = st.stockLog) ∧
    (∀ barcode delta operator typ note p0 rest,
      st.products = p0 :: rest → p0.barcode = barcode →
      update_stock_by_barcode barcode delta operator typ note st =
        .raise msgAtTypeError
          (save_products ({ p0 with stock := p0.stock + delta } :: rest) st)) := by
  refine ⟨?_, ?_, ?_, ?_, ?_⟩
  · intro newId barcode name category location notes price purchase_price bulk_price
      bulk_quantity stock logId now e he
    have hlog : (add_product newId barcode name category location notes price
        purchase_price bulk_price bulk_quantity stock logId now st).stockLog =
        (if 0 < stock ∧ pyStrip barcode ≠ "" then
          st.stockLog ++ [initEntryRow (pyStrip barcode) (pyStrip name) stock logId now]
        else st.stockLog) := by
      by_cases hc : 0 < stock ∧ pyStrip barcode ≠ "" <;>
        simp [add_product, newProductRow, append_stock_log, save_products, hc]
    rw [hlog] at he
    by_cases hc : 0 < stock ∧ pyStrip barcode ≠ ""
    · rw [if_pos hc] at he
      rcases List.mem_append.mp he with he | he
      · exact hst e he
      · rw [List.mem_singleton] at he
        subst he
        simp [logInv, initEntryRow]
    · rw [if_neg hc] at he
      exact hst e he
  · intro ebar name2 category2 location2 notes2 price2 purchase_price2 bulk_price2
      bulk_quantity2 stock2 logId now e he
    rcases hm : updateFirstMatch ebar
        (editedRow name2 category2 location2 notes2 price2 purchase_price2
          bulk_price2 bulk_quantity2 stock2) st.products with _ | ⟨before, prods⟩
    · simp only [update_product, hm] at he
      exact hst e he
    · simp only [update_product, hm] at he
      by_cases hb : before = stock2
      · rw [if_pos hb] at he
        exact hst e he
      · rw [if_neg hb] at he
        simp only [append_stock_log, save_products, List.mem_append,
          List.mem_singleton] at he
        rcases he with he | he
        · exact hst e he
        · subst he
          simp only [logInv, manualEntryRow]
          omega
  · intro barcode delta operator typ note r stx hok
    rcases hm : updateFirstMatch barcode (fun p => { p with stock := p.stock + delta })
        st.products with _ | ⟨before, prods⟩
    · simp only [update_stock_by_barcode, hm] at hok
      injection hok with h1 h2
      rw [← h2]
    · simp only [update_stock_by_barcode, hm] at hok
      exact PyResult.noConfusion hok
  · intro barcode delta operator typ note m stx hraise
    rcases hm : updateFirstMatch barcode (fun p => { p with stock := p.stock + delta })
        st.products with _ | ⟨before, prods⟩
    · simp only [update_stock_by_barcode, hm] at hraise
      exact PyResult.noConfusion hraise
    · simp only [update_stock_by_barcode, hm] at hraise
      injection hraise with h1 h2
      rw [← h2]
      rfl
  · intro barcode delta operator typ note p0 rest hprod hbar
    have hm : updateFirstMatch barcode (fun p => { p with stock := p.stock + delta })
        st.products = some (p0.stock, { p0 with stock := p0.stock + delta } :: rest) := by
      rw [hprod]
      simp [updateFirstMatch, hbar]
    simp only [update_stock_by_barcode, hm]

/-- Witness for C2: on a store with one product with barcode A and stock 3,
adjusting by -5 persists stock -2 (negative, no floor check) and raises
before logging. -/
theorem C2_stock_log_entries_invariant_witness :
    update_stock_by_barcode "A" (-5) "收银" "sale" "POS 结账" stNeg =
      .raise msgAtTypeError
        (save_products [{ pNeg with stock := pNeg.stock + (-5) }] stNeg) ∧
    ({ pNeg with stock := pNeg.stock + (-5) } : Product).stock < 0 :=
  ⟨(C2_stock_log_entries_invariant stNeg (by simp [stNeg])).2.2.2.2
      "A" (-5) "收银" "sale" "POS 结账" pNeg [] rfl rfl,
    by decide⟩

/-- C8: adding a product appends exactly one catalog entry carrying the
freshly generated id (so ids stay pairwise distinct whenever the generated
id is fresh), persists it, writes no transaction, and appends exactly one
in_initial stock log entry with before_stock 0 and after_stock equal to the
initial stock precisely when the initial stock is positive and the stripped
barcode is nonempty; otherwise it appends no stock log entry. -/
theorem C8_add_product (newId barcode name category location notes : String)
    (price purchase_price bulk_price : ℚ) (bulk_quantity stock : Int)
    (logId now : String) (st : StoreState) :
    ((add_product newId barcode name category location notes price purchase_price
        bulk_price bulk_quantity stock logId now st).products = st.products ++
          [newProductRow newId barcode name category location notes price
            purchase_price bulk_price bulk_quantity stock] ∧
      (newProductRow newId barcode name category location notes price purchase_price
        bulk_price bulk_quantity stock).id = newId ∧
      (newProductRow newId barcode name category location notes price purchase_price
        bulk_price bulk_quantity stock).barcode = pyStrip barcode ∧
      (newProductRow newId barcode name category location notes price purchase_price
        bulk_price bulk_quantity stock).stock = stock) ∧
    (newId ∉ st.products.map (fun p => p.id) →
      (st.products.map (fun p => p.id)).Nodup →
      ((add_product newId barcode name category location notes price purchase_price
        bulk_price bulk_quantity stock logId now st).products.map (fun p => p.id)).Nodup) ∧
    (0 < stock ∧ pyStrip barcode ≠ "" →
      (add_product newId barcode name category location notes price purchase_price
        bulk_price bulk_quantity stock logId now st).stockLog = st.stockLog ++
        [{ log_id := logId, datetime := now, barcode := pyStrip barcode, name := pyStrip name,
           change := stock, before_stock := 0, after_stock := stock, typ := "in_initial",
           operator := "system", note := "新建商品初始库存" }]) ∧
    (¬(0 < stock ∧ pyStrip barcode ≠ "") →
      (add_product newId barcode name category location notes price purchase_price
        bulk_price bulk_quantity stock logId now st).stockLog = st.stockLog) ∧
    (add_product newId barcode name category location notes price purchase_price
      bulk_price bulk_quantity stock logId now st).transactions = st.transactions := by
  have hprod : (add_product newId barcode name category location notes price
      purchase_price bulk_price bulk_quantity stock logId now st).products =
      st.products ++ [newProductRow newId barcode name category location notes price
        purchase_price bulk_price bulk_quantity stock] := by
    by_cases hc : 0 < stock ∧ pyStrip barcode ≠ "" <;>
      simp [add_product, newProductRow, append_stock_log, save_products, hc]
  refine ⟨⟨hprod, rfl, rfl, rfl⟩, ?_, ?_, ?_, ?_⟩
  · intro hfresh hnd
    rw [hprod, List.map_append]
    rw [List.nodup_append]
    refine ⟨hnd, List.nodup_singleton _, ?_⟩
    intro a ha hb
    simp only [List.map_cons, List.map_nil, List.mem_singleton] at hb
    subst hb
    exact hfresh ha
  · intro hc
    simp [add_product, newProductRow, initEntryRow, append_stock_log, save_products, hc]
  · intro hc
    simp [add_product, newProductRow, append_stock_log, save_products, hc]
  · by_cases hc : 0 < stock ∧ pyStrip barcode ≠ "" <;>
      simp [add_product, newProductRow, append_stock_log, save_products, hc]

/-- Witness for C8: adding a product with stock 10 and nonempty barcode to
the empty store appends exactly one in_initial entry with before_stock 0 and
after_stock 10, while stock 0 appends none. -/
theorem C8_add_product_witness :
    (add_product "id9" "B1" "新品" "" "" "" 1 0 0 0 10 "lg" "now" stEmpty).stockLog =
      [{ log_id := "lg", datetime := "now", barcode := "B1", name := "新品",
         change := 10, before_stock := 0, after_stock := 10, typ := "in_initial",
         operator := "system", note := "新建商品初始库存" }] ∧
    (add_product "id8" "B1" "新品" "" "" "" 1 0 0 0 0 "lg" "now" stEmpty).stockLog = [] := by
  constructor
  · have h := (C8_add_product "id9" "B1" "新品" "" "" "" 1 0 0 0 10 "lg" "now"
      stEmpty).2.2.1 ⟨by decide, by decide⟩
    simpa [stEmpty] using h
  · have h := (C8_add_product "id8" "B1" "新品" "" "" "" 1 0 0 0 0 "lg" "now"
      stEmpty).2.2.2.1 (by decide)
    simpa [stEmpty] using h

/-- helper: in a catalog whose nonempty barcodes are pairwise distinct, at
most one row matches a given nonempty barcode. -/
theorem filter_barcode_length_le_one (b : String) (hb : b ≠ "") :
    ∀ l : List Product,
      ((l.filter (fun p => p.barcode != "")).map (fun p => p.barcode)).Nodup →
      (l.filter (fun p => p.barcode == b)).length ≤ 1 := by
  intro l
  induction l with
  | nil => intro _; simp
  | cons p rest ih =>
      intro hnd
      by_cases hpb : p.barcode = b
      · have hpe : (p.barcode != "") = true := by simp [hpb, hb]
        rw [List.filter_cons, if_pos hpe, List.map_cons] at hnd
        rcases List.nodup_cons.mp hnd with ⟨hnotin, _⟩
        have hrest : rest.filter (fun p => p.barcode == b) = [] := by
          rw [List.filter_eq_nil_iff]
          intro q hq hqb
          have hqb2 : q.barcode = b := by simpa using hqb
          apply hnotin
          rw [List.mem_map]
          refine ⟨q, ?_, by rw [hqb2, hpb]⟩
          rw [List.mem_filter]
          exact ⟨hq, by simp [hqb2, hb]⟩
        have hhead : (p.barcode == b) = true := by simp [hpb]
        rw [List.filter_cons, if_pos hhead, hrest]
        simp
      · have hpbf : (p.barcode == b) = false := by simp [hpb]
        have hnd2 : ((rest.filter (fun p => p.barcode != "")).map
            (fun p => p.barcode)).Nodup := by
          by_cases hpe : (p.barcode != "") = true
          · rw [List.filter_cons, if_pos hpe, List.map_cons] at hnd
            exact (List.nodup_cons.mp hnd).2
          · rw [List.filter_cons, if_neg (by simpa using hpe)] at hnd
            exact hnd
        rw [List.filter_cons, if_neg (by simp [hpbf])]
        exact ih hnd2

/-- C4 counterexample: the catalog of stDup has two rows with barcode X, and
search_by_barcode on X returns both of them, so the at-most-one-result part
of the claim fails on catalogs with a duplicated barcode (the program never
enforces barcode uniqueness when rows are added). -/
theorem C4_counterexample_duplicate_barcode :
    ¬ (search_by_barcode "X" stDup.products).length ≤ 1 := by
  decide

/-- C4 amended: search_by_barcode returns exactly the catalog rows whose
normalized barcode equals the stripped input (exact string equality, never a
partial or fuzzy match), so it returns at most one product whenever the
nonempty barcodes of the catalog are pairwise distinct, and an empty or
whitespace-only input yields no result. -/
theorem C4_search_by_barcode_amended (input : String) (products : List Product) :
    (pyStrip input = "" → search_by_barcode input products = []) ∧
    (pyStrip input ≠ "" →
      search_by_barcode input products =
        products.filter (fun p => p.barcode == pyStrip input)) ∧
    (∀ p ∈ search_by_barcode input products, p.barcode = pyStrip input) ∧
    (((products.filter (fun p => p.barcode != "")).map (fun p => p.barcode)).Nodup →
      (search_by_barcode input products).length ≤ 1) := by
  refine ⟨?_, ?_, ?_, ?_⟩
  · intro h
    simp only [search_by_barcode, if_pos h]
  · intro h
    simp only [search_by_barcode, if_neg h]
  · intro p hp
    by_cases h : pyStrip input = ""
    · rw [search_by_barcode] at hp
      simp only [if_pos h] at hp
      cases hp
    · simp only [search_by_barcode, if_neg h] at hp
      simpa using List.of_mem_filter hp
  · intro hnd
    by_cases h : pyStrip input = ""
    · simp [search_by_barcode, if_pos h]
    · simp only [search_by_barcode, if_neg h]
      exact filter_barcode_length_le_one (pyStrip input) h products hnd

/-- Witness for C4 at concrete inputs: a whitespace-padded barcode is
stripped and matched exactly, and on a duplicate-free catalog the result has
at most one element. -/
theorem C4_search_by_barcode_amended_witness :
    search_by_barcode " Y " stDup.products = [pY] ∧
    (search_by_barcode "X" [pX1, pY]).length ≤ 1 := by
  constructor
  · exact ((C4_search_by_barcode_amended " Y " stDup.products).2.1
      (by decide)).trans (by decide)
  · exact (C4_search_by_barcode_amended "X" [pX1, pY]).2.2.2 (by decide)

/-- helper: the extraction capability used in the counterexample and the
witness honours the process.extract bound of at most limit results. -/
theorem extractDedup_length_le (q : String) (c : List String) (n : Nat) :
    (extractDedup q c n).length ≤ n := by
  simp [extractDedup]

/-- helper: the isin filter of the fuzzy branch returns at most as many
products as there are extracted names, provided the product names are
pairwise distinct. -/
theorem filter_name_mem_length_le (products : List Product) (names : List String)
    (hnd : (products.map nameStr).Nodup) :
    (products.filter (fun p =>
      match p.name with
      | some s => names.contains s
      | none => false)).length ≤ names.length := by
  set f := fun p : Product =>
    match p.name with
    | some s => names.contains s
    | none => false with hf
  have hsub : (products.filter f).Sublist products := List.filter_sublist products
  have hnd2 : ((products.filter f).map nameStr).Nodup :=
    hnd.sublist (hsub.map nameStr)
  have hmem : ∀ s ∈ (products.filter f).map nameStr, s ∈ names := by
    intro s hs
    rcases List.mem_map.mp hs with ⟨p, hp, rfl⟩
    have hfp0 := List.of_mem_filter hp
    rw [hf] at hfp0
    cases hn : p.name with
    | none => simp [hn] at hfp0
    | some snm =>
        simp only [hn] at hfp0
        have hsnm : snm ∈ names := by simpa using hfp0
        simpa [nameStr, hn] using hsnm
  calc (products.filter f).length
      = ((products.filter f).map nameStr).length := (List.length_map _ _).symm
    _ = ((products.filter f).map nameStr).toFinset.card :=
        (List.toFinset_card_of_nodup hnd2).symm
    _ ≤ names.toFinset.card := Finset.card_le_card (by
        intro s hs
        rw [List.mem_toFinset] at hs ⊢
        exact hmem s hs)
    _ ≤ names.length := names.toFinset_card_le

/-- C3 counterexample: with two distinct products both named Apple, the
query B (a metacharacter-free pattern with zero matches), limit 1, and the
fuzzy capability available, search_by_name returns both products, exceeding
the limit.  The extraction step itself honours the limit (extractDedup
returns the single name Apple here, exactly what rapidfuzz process.extract
with the WRatio scorer and limit 1 returns at this input), but the final
isin filter keeps every product bearing an extracted name. -/
theorem C3_counterexample_fuzzy_exceeds_limit :
    search_by_name "B" [apple1, apple2] 1 true reCompileLiteral extractDedup =
      .ok [apple1, apple2] ∧
    ¬ ([apple1, apple2] : List Product).length ≤ 1 := by
  exact ⟨rfl, by decide⟩

/-- C3 amended: an empty or whitespace-only query returns the empty result
before any matching; a nonempty query whose pattern does not compile as a
regular expression makes search_by_name raise re.error (nothing is
returned); otherwise, with f the compiled case-insensitive matcher of the
query, the result is the first limit elements of the match set whenever that
set is nonempty or no fuzzy capability is available (hence at most limit
results there, and the empty result for an empty match set with no fuzzy
capability); the fuzzy fallback runs exactly when the stripped query
compiles, its match set is empty and the capability is available, and then
the result consists of every product whose name is among the at most limit
extracted names, which is itself at most limit products whenever product
names are pairwise distinct but can exceed limit when several products share
an extracted name. -/
theorem C3_search_by_name_amended (query : String) (products : List Product)
    (limit : Nat) (fuzzyAvailable : Bool)
    (reCompile : String → Option (String → Bool))
    (extract : String → List String → Nat → List String)
    (hlen : ∀ q c n, (extract q c n).length ≤ n) :
    (pyStrip query = "" →
      search_by_name query products limit fuzzyAvailable reCompile extract = .ok []) ∧
    (pyStrip query ≠ "" → reCompile (pyStrip query) = none →
      search_by_name query products limit fuzzyAvailable reCompile extract =
        .error msgReError) ∧
    (∀ f, pyStrip query ≠ "" → reCompile (pyStrip query) = some f →
      products.filter (fun p => f (nameStr p)) ≠ [] →
      search_by_name query products limit fuzzyAvailable reCompile extract =
        .ok ((products.filter (fun p => f (nameStr p))).take limit)) ∧
    (∀ f, pyStrip query ≠ "" → reCompile (pyStrip query) = some f →
      fuzzyAvailable = false →
      search_by_name query products limit fuzzyAvailable reCompile extract =
        .ok ((products.filter (fun p => f (nameStr p))).take limit)) ∧
    (∀ f, pyStrip query ≠ "" → reCompile (pyStrip query) = some f →
      products.filter (fun p => f (nameStr p)) = [] → fuzzyAvailable = false →
      search_by_name query products limit fuzzyAvailable reCompile extract = .ok []) ∧
    (∀ f, pyStrip query ≠ "" → reCompile (pyStrip query) = some f →
      products.filter (fun p => f (nameStr p)) = [] → fuzzyAvailable = true →
      search_by_name query products limit fuzzyAvailable reCompile extract =
        .ok (products.filter (fun p =>
          match p.name with
          | some s => (extract (pyStrip query) (products.map nameStr) limit).contains s
          | none => false))) ∧
    ((products.map nameStr).Nodup →
      ∀ l, search_by_name query products limit fuzzyAvailable reCompile extract = .ok l →
        l.length ≤ limit) := by
  have hlenq : ∀ s : String, s ≠ "" → ¬ s.length = 0 := by
    intro s hs hcon
    apply hs
    cases s with
    | mk data =>
        rw [String.length] at hcon
        simp only [List.length_eq_zero] at hcon
        simp [hcon]
  refine ⟨?_, ?_, ?_, ?_, ?_, ?_, ?_⟩
  · intro h
    simp only [search_by_name, h]
    rfl
  · intro hq hre
    simp only [search_by_name, if_neg (hlenq _ hq), hre]
  · intro f hq hre hsubs
    simp only [search_by_name, if_neg (hlenq _ hq), hre]
    have hge : 1 ≤ (products.filter (fun p => f (nameStr p))).length :=
      List.length_pos.mpr hsubs
    rw [if_pos (Or.inl hge)]
  · intro f hq hre hfz
    simp only [search_by_name, if_neg (hlenq _ hq), hre]
    rw [if_pos (Or.inr hfz)]
  · intro f hq hre hsubs hfz
    simp only [search_by_name, if_neg (hlenq _ hq), hre]
    rw [if_pos (Or.inr hfz), hsubs, List.take_nil]
  · intro f hq hre hsubs hfz
    simp only [search_by_name, if_neg (hlenq _ hq), hre]
    have hcond : ¬(1 ≤ (products.filter (fun p => f (nameStr p))).length ∨
        fuzzyAvailable = false) := by
      push_neg
      exact ⟨by rw [hsubs]; simp, by simp [hfz]⟩
    rw [if_neg hcond]
  · intro hnd l hl
    by_cases hq : pyStrip query = ""
    · simp only [search_by_name, hq] at hl
      have hl2 : ([] : List Product) = l := by
        simpa using hl
      rw [← hl2]
      simp
    · cases hre : reCompile (pyStrip query) with
      | none =>
          simp only [search_by_name, if_neg (hlenq _ hq), hre] at hl
          cases hl
      | some f =>
          simp only [search_by_name, if_neg (hlenq _ hq), hre] at hl
          by_cases hcond : 1 ≤ (products.filter (fun p => f (nameStr p))).length ∨
              fuzzyAvailable = false
          · rw [if_pos hcond] at hl
            injection hl with hl
            rw [← hl]
            exact List.length_take_le _ _
          · rw [if_neg hcond] at hl
            injection hl with hl
            rw [← hl]
            exact (filter_name_mem_length_le products _ hnd).trans (hlen _ _ _)

/-- Witness for C3: a metacharacter-free substring query returns the matches
within the limit, and on a catalog with pairwise distinct names a fuzzy
lookup stays within the limit; both instantiate the compile capability with
the literal matcher, which agrees with the Python regex behaviour at these
patterns. -/
theorem C3_search_by_name_amended_witness :
    search_by_name "app" [apple1, apple2] 5 true reCompileLiteral extractDedup =
      .ok [apple1, apple2] ∧
    ([pBanana] : List Product).length ≤ 1 := by
  constructor
  · exact ((C3_search_by_name_amended "app" [apple1, apple2] 5 true reCompileLiteral
      extractDedup extractDedup_length_le).2.2.1 (fun s => strContainsCI s "app")
      (by decide) rfl (by decide)).trans rfl
  · exact (C3_search_by_name_amended "B" [apple1, pBanana] 1 true reCompileLiteral
      extractDedup extractDedup_length_le).2.2.2.2.2.2 (by decide) [pBanana] rfl

/-- C7: loading the catalog never propagates a failure (a failed read gives
the empty catalog); a sheet under the localized label set loads exactly like
the same sheet under the internal label set; rows of a sheet with no
recognized columns load with every field at its default (empty string for id
and barcode, 0 for stock and bulk_quantity, null for everything else); the
stock column coerces an unparsable cell to 0 and a parsable one to its
truncated integer value, and the price column coerces an unparsable cell to
null and a parsable one to its numeric value. -/
theorem C7_load_products (rows : List (List (Option String))) (s1 s2 : String) :
    load_products none = [] ∧
    load_products (some ⟨CHINESE_HEADERS_ORDER, rows⟩) =
      load_products (some ⟨ENGLISH_HEADERS_ORDER, rows⟩) ∧
    (∀ n, load_products (some ⟨[], List.replicate n []⟩) =
      List.replicate n defaultRowProduct) ∧
    (parseNum s1 = none →
      (load_products (some ⟨["stock", "price"], [[some s1, some s2]]⟩)).map
        (fun p => p.stock) = [0]) ∧
    (∀ q, parseNum s1 = some q →
      (load_products (some ⟨["stock", "price"], [[some s1, some s2]]⟩)).map
        (fun p => p.stock) = [truncInt q]) ∧
    (load_products (some ⟨["stock", "price"], [[some s1, some s2]]⟩)).map
      (fun p => p.price) = [parseNum s2] := by
  have hccols : (if CHINESE_HEADERS_ORDER.any
      (fun c => (COLUMN_MAP.lookup c).isSome) then
      CHINESE_HEADERS_ORDER.map applyColumnMap else CHINESE_HEADERS_ORDER) =
      ENGLISH_HEADERS_ORDER := by decide
  have hecols : (if ENGLISH_HEADERS_ORDER.any
      (fun c => (COLUMN_MAP.lookup c).isSome) then
      ENGLISH_HEADERS_ORDER.map applyColumnMap else ENGLISH_HEADERS_ORDER) =
      ENGLISH_HEADERS_ORDER := by decide
  refine ⟨rfl, ?_, ?_, ?_, ?_, ?_⟩
  · simp only [load_products]
    rw [hccols, hecols]
  · intro n
    simp only [load_products]
    rw [List.map_replicate]
    rfl
  · intro h
    show [coerceInt (some s1)] = [0]
    simp [coerceInt, h]
  · intro q hq
    show [coerceInt (some s1)] = [truncInt q]
    simp [coerceInt, hq]
  · show [coerceNum (some s2)] = [parseNum s2]
    rfl

/-- Witness for C7: an unparsable stock cell loads as 0, an unparsable price
cell loads as null, and a sheet with no recognized columns loads its rows
with all defaults. -/
theorem C7_load_products_witness :
    (load_products (some ⟨["stock", "price"], [[some "abc", some "xx"]]⟩)).map
      (fun p => p.stock) = [0] ∧
    (load_products (some ⟨["stock", "price"], [[some "abc", some "xx"]]⟩)).map
      (fun p => p.price) = [none] ∧
    load_products (some ⟨[], List.replicate 2 []⟩) =
      List.replicate 2 defaultRowProduct := by
  refine ⟨?_, ?_, ?_⟩
  · exact (C7_load_products [] "abc" "xx").2.2.2.1 (by decide)
  · exact (C7_load_products [] "abc" "xx").2.2.2.2.2.trans (by decide)
  · exact (C7_load_products [] "abc" "xx").2.2.1 2

end StoreManager
